import Mathlib

/-!
Shallow embedding of the voxel-renderer-rs repository: a minimal windowed
GPU-rendering harness (src/framework.rs) together with its one concrete
renderer, a colored cube (src/main.rs).

Conventions of the embedding:
* machine floats that only ever hold exact decimal constants or exact
  quotients are modelled as rationals (ℚ);
* calls into the external `glam` math library (`perspective_rh`,
  `look_at_rh`, matrix multiplication) are kept symbolic, as an expression
  tree `GlamMat4` recording exactly the arguments the repository passes —
  the library is an external collaborator, only its call boundary matters;
* real constants of the form `a + b·π` (the field-of-view angle `FRAC_PI_4`)
  are represented exactly by the pair of coefficients (`PiRat`);
* GPU objects (buffers, bind groups, textures) are given explicit identities
  (natural-number ids) plus typed contents, so that "rewritten in place"
  versus "recreated" is observable;
* process aborts (`unwrap` / `expect` / out-of-bounds indexing) are modelled
  as `none` / a `fatal` result constructor;
* the winit event loop is modelled as a step function over an explicit event
  list, with `exit()` modelled by a `stopped` flag that makes every later
  event a no-op (the loop has returned).
-/

/-! ### Basic wgpu-side value types (framework.rs uses these) -/

/-- Window size in pixels, `winit::dpi::PhysicalSize<u32>`. -/
structure PhysicalSize where
  width : ℕ
  height : ℕ
deriving DecidableEq, Repr

/-- Texture formats, abstracted to a base identifier plus whether the sRGB
suffix is present — all the repository does with a format is select it from a
capability list and apply `add_srgb_suffix`. -/
inductive TextureFormat where
  | base (n : ℕ)
  | srgb (n : ℕ)
deriving DecidableEq, Repr

/-- Model of `wgpu::TextureFormat::add_srgb_suffix`: switch to the sRGB
variant of the format (idempotent on formats already carrying the suffix). -/
def TextureFormat.add_srgb_suffix : TextureFormat → TextureFormat
  | .base n => .srgb n
  | .srgb n => .srgb n

inductive TextureUsages where
  | RENDER_ATTACHMENT
deriving DecidableEq, Repr

inductive CompositeAlphaMode where
  | Auto
deriving DecidableEq, Repr

inductive PresentMode where
  | AutoVsync
deriving DecidableEq, Repr

/-- Model of `wgpu::SurfaceConfiguration` with the fields framework.rs sets. -/
structure SurfaceConfiguration where
  usage : TextureUsages
  format : TextureFormat
  view_formats : List TextureFormat
  alpha_mode : CompositeAlphaMode
  width : ℕ
  height : ℕ
  desired_maximum_frame_latency : ℕ
  present_mode : PresentMode
deriving DecidableEq, Repr

/-- Embedding of `build_surface_config` (framework.rs, lines 63–78). -/
def build_surface_config (surface_format : TextureFormat) (size : PhysicalSize) :
    SurfaceConfiguration :=
  { usage := .RENDER_ATTACHMENT
    format := surface_format
    view_formats := [surface_format.add_srgb_suffix]
    alpha_mode := .Auto
    width := size.width
    height := size.height
    desired_maximum_frame_latency := 2
    present_mode := .AutoVsync }

/-! ### Device features and context -/

/-- Device features; the repository only ever queries `POLYGON_MODE_LINE`,
other features are opaque. -/
inductive Feature where
  | POLYGON_MODE_LINE
  | OTHER (n : ℕ)
deriving DecidableEq, Repr

/-- Model of `simple_wgpu::Context` (device + queue); the only device datum
the repository reads is the feature set. -/
structure Context where
  features : List Feature
deriving DecidableEq, Repr

/-- Opaque adapter handle (passed to `Main::init`, unused by the cube). -/
structure Adapter where
  id : ℕ
deriving DecidableEq, Repr

/-! ### Symbolic glam matrices -/

/-- Exact representation of a real number of the form `const + pi_coeff · π`,
enough for every scalar constant this program feeds to glam
(`FRAC_PI_4 = 0 + (1/4)·π`). -/
structure PiRat where
  const : ℚ
  pi_coeff : ℚ
deriving DecidableEq, Repr

/-- The constant `std::f32::consts::FRAC_PI_4`, i.e. π/4. -/
def FRAC_PI_4 : PiRat := ⟨0, 1/4⟩

/-- Symbolic 4×4 matrix expression: the external glam calls the repository
makes, recorded with their exact arguments. -/
inductive GlamMat4 where
  | perspective_rh (fovy_radians : PiRat) (aspect z_near z_far : ℚ)
  | look_at_rh (eye center up : ℚ × ℚ × ℚ)
  | mul (a b : GlamMat4)
deriving DecidableEq, Repr

/-! ### Buffers, bind groups, pipelines, draw calls (simple_wgpu objects) -/

inductive BufferUsage where
  | VERTEX
  | INDEX
  | UNIFORM
  | COPY_DST
deriving DecidableEq, Repr

/-- GPU buffer with an identity (so recreation is distinguishable from an
in-place write) and typed contents. -/
structure Buffer (α : Type) where
  label : String
  usage : List BufferUsage
  id : ℕ
  contents : α
deriving DecidableEq, Repr

/-- Record of one queue write into an existing buffer: target buffer id and
the matrix payload (the only data the repository ever writes post-init). -/
abbrev BufferWrite := ℕ × GlamMat4

/-- Model of `Buffer::write`: replace the contents, keep the identity, and
record the write event. -/
def Buffer.write (b : Buffer GlamMat4) (data : GlamMat4) :
    Buffer GlamMat4 × BufferWrite :=
  ({ b with contents := data }, (b.id, data))

/-- Bind group: list of (binding index, buffer id) entries. -/
structure BindGroup where
  entries : List (ℕ × ℕ)
deriving DecidableEq, Repr

inductive BlendFactor where
  | SrcAlpha
  | OneMinusSrcAlpha
  | One
  | Zero
deriving DecidableEq, Repr

inductive BlendOperation where
  | Add
deriving DecidableEq, Repr

structure BlendComponent where
  operation : BlendOperation
  src_factor : BlendFactor
  dst_factor : BlendFactor
deriving DecidableEq, Repr

/-- Model of `wgpu::BlendComponent::REPLACE`. -/
def BlendComponent.REPLACE : BlendComponent :=
  { operation := .Add, src_factor := .One, dst_factor := .Zero }

structure BlendState where
  color : BlendComponent
  alpha : BlendComponent
deriving DecidableEq, Repr

inductive ColorWrites where
  | ALL
deriving DecidableEq, Repr

structure ColorTargetState where
  blend : Option BlendState
  write_mask : ColorWrites
deriving DecidableEq, Repr

/-- Model of `ColorTargetState::default()`: no blending, all channels. -/
def defaultColorTargetState : ColorTargetState :=
  { blend := none, write_mask := .ALL }

/-- Render pipeline description: shader entry points and fragment targets
(the data the builder calls in main.rs fix). -/
structure RenderPipeline where
  vertex_entry : String
  fragment_entry : String
  targets : List (Option ColorTargetState)
deriving DecidableEq, Repr

inductive Face where
  | Back
  | Front
deriving DecidableEq, Repr

inductive PolygonMode where
  | Fill
  | Line
deriving DecidableEq, Repr

structure RasteriserState where
  cull_mode : Option Face
  polygon_mode : PolygonMode
deriving DecidableEq, Repr

/-- Model of `RasteriserState::default()`: no culling, filled polygons. -/
def defaultRasteriserState : RasteriserState :=
  { cull_mode := none, polygon_mode := .Fill }

/-- One `DrawCall` as submitted through `simple_wgpu` in `Cube::render`;
buffers are referenced by id (a full-range slice of the buffer). -/
structure DrawCall where
  bind_groups : List BindGroup
  bind_group_offsets : List (List ℕ)
  pipeline : RenderPipeline
  vertices : List ℕ
  indices : Option ℕ
  element_range : ℕ × ℕ
  instance_range : ℕ × ℕ
  rasteriser_state : RasteriserState
deriving DecidableEq, Repr

structure Color where
  r : ℚ
  g : ℚ
  b : ℚ
  a : ℚ
deriving DecidableEq, Repr

/-- Texture view: underlying texture id plus the view format. -/
structure TextureView where
  texture : ℕ
  format : TextureFormat
deriving DecidableEq, Repr

/-- Model of `simple_wgpu::RenderTexture`: a view plus its pixel format. -/
structure RenderTexture where
  view : TextureView
  format : TextureFormat
deriving DecidableEq, Repr

/-- Embedding of `RenderTexture::from_texture_view`. -/
def RenderTexture.from_texture_view (v : TextureView) (format : TextureFormat) :
    RenderTexture :=
  { view := v, format := format }

inductive LoadOp where
  | Clear (c : Color)
  | Load
deriving DecidableEq, Repr

structure ColorAttachment where
  target : RenderTexture
  load : LoadOp
deriving DecidableEq, Repr

/-- One recorded render pass: its color attachments and draw calls in
submission order. -/
structure RenderPassRecord where
  color_attachments : List ColorAttachment
  draws : List DrawCall
deriving DecidableEq, Repr

/-- Everything a renderer's `render` call does, observably: the render
passes it records and the buffer writes it performs. -/
structure RenderOutput where
  passes : List RenderPassRecord
  buffer_writes : List BufferWrite
deriving DecidableEq, Repr

/-- All draw calls of a render output, in submission order. -/
def RenderOutput.drawList (o : RenderOutput) : List DrawCall :=
  (o.passes.map RenderPassRecord.draws).flatten

/-! ### Cube geometry (main.rs, `create_cube_geometry`) -/

/-- Vertex as in main.rs: homogeneous position and RGBA color, floats
modelled as exact rationals. -/
structure Vertex where
  position : ℚ × ℚ × ℚ × ℚ
  color : ℚ × ℚ × ℚ × ℚ
deriving DecidableEq, Repr

namespace Cube

/-- Embedding of `Cube::create_cube_geometry` (main.rs, lines 143–200):
the fixed 24-vertex, 36-index cube tables. -/
def create_cube_geometry : List Vertex × List ℕ :=
  let top_color : ℚ × ℚ × ℚ × ℚ := (9/10, 4/10, 3/10, 1)
  let bottom_color : ℚ × ℚ × ℚ × ℚ := (3/10, 4/10, 9/10, 1)
  let right_color : ℚ × ℚ × ℚ × ℚ := (3/10, 8/10, 3/10, 1)
  let left_color : ℚ × ℚ × ℚ × ℚ := (8/10, 3/10, 8/10, 1)
  let front_color : ℚ × ℚ × ℚ × ℚ := (9/10, 9/10, 3/10, 1)
  let back_color : ℚ × ℚ × ℚ × ℚ := (3/10, 9/10, 9/10, 1)
  let vertices : List Vertex := [
    -- Top face (0, 0, 1)
    ⟨(-1, -1, 1, 1), top_color⟩,
    ⟨(1, -1, 1, 1), top_color⟩,
    ⟨(1, 1, 1, 1), top_color⟩,
    ⟨(-1, 1, 1, 1), top_color⟩,
    -- Bottom face (0, 0, -1)
    ⟨(-1, 1, -1, 1), bottom_color⟩,
    ⟨(1, 1, -1, 1), bottom_color⟩,
    ⟨(1, -1, -1, 1), bottom_color⟩,
    ⟨(-1, -1, -1, 1), bottom_color⟩,
    -- Right face (1, 0, 0)
    ⟨(1, -1, -1, 1), right_color⟩,
    ⟨(1, 1, -1, 1), right_color⟩,
    ⟨(1, 1, 1, 1), right_color⟩,
    ⟨(1, -1, 1, 1), right_color⟩,
    -- Left face (-1, 0, 0)
    ⟨(-1, -1, 1, 1), left_color⟩,
    ⟨(-1, 1, 1, 1), left_color⟩,
    ⟨(-1, 1, -1, 1), left_color⟩,
    ⟨(-1, -1, -1, 1), left_color⟩,
    -- Front face (0, 1, 0)
    ⟨(1, 1, -1, 1), front_color⟩,
    ⟨(-1, 1, -1, 1), front_color⟩,
    ⟨(-1, 1, 1, 1), front_color⟩,
    ⟨(1, 1, 1, 1), front_color⟩,
    -- Back face (0, -1, 0)
    ⟨(1, -1, 1, 1), back_color⟩,
    ⟨(-1, -1, 1, 1), back_color⟩,
    ⟨(-1, -1, -1, 1), back_color⟩,
    ⟨(1, -1, -1, 1), back_color⟩]
  let indices : List ℕ := [
    0, 1, 2, 2, 3, 0,       -- top
    4, 5, 6, 6, 7, 4,       -- bottom
    8, 9, 10, 10, 11, 8,    -- right
    12, 13, 14, 14, 15, 12, -- left
    16, 17, 18, 18, 19, 16, -- front
    20, 21, 22, 22, 23, 20] -- back
  (vertices, indices)

/-- Embedding of `Cube::create_view_projection_matrix` (main.rs, lines
202–210): perspective_rh(FRAC_PI_4, aspect, 1.0, 10.0) times
look_at_rh((1.5, −5, 3), origin, Z). -/
def create_view_projection_matrix (aspect : ℚ) : GlamMat4 :=
  let projection := GlamMat4.perspective_rh FRAC_PI_4 aspect 1 10
  let view := GlamMat4.look_at_rh (3/2, -5, 3) (0, 0, 0) (0, 0, 1)
  .mul projection view

end Cube

/-- The cube renderer's GPU resource bundle (struct `Cube`, main.rs lines
24–32). -/
structure Cube where
  vertex_buffer : Buffer (List Vertex)
  index_buffer : Buffer (List ℕ)
  index_count : ℕ
  uniform_buffer : Buffer GlamMat4
  bind_group : BindGroup
  render_pipeline : RenderPipeline
  wireframe_pipeline : Option RenderPipeline
deriving DecidableEq, Repr

namespace Cube

/-- Embedding of `Cube::new` (main.rs, lines 35–120). Buffer ids 0,1,2
record creation order (vertex, index, uniform). -/
def new (config : SurfaceConfiguration) (context : Context) : Cube :=
  let (vertices, indices) := create_cube_geometry
  let vertex_buffer : Buffer (List Vertex) :=
    { label := "Cube Vertices", usage := [.VERTEX], id := 0, contents := vertices }
  let index_buffer : Buffer (List ℕ) :=
    { label := "Cube Indices", usage := [.INDEX], id := 1, contents := indices }
  let aspect := (config.width : ℚ) / (config.height : ℚ)
  let transform_matrix := create_view_projection_matrix aspect
  let uniform_buffer : Buffer GlamMat4 :=
    { label := "Transform Matrix", usage := [.UNIFORM, .COPY_DST], id := 2,
      contents := transform_matrix }
  let bind_group : BindGroup := { entries := [(0, uniform_buffer.id)] }
  let render_pipeline : RenderPipeline :=
    { vertex_entry := "vs_main", fragment_entry := "fs_main",
      targets := [some defaultColorTargetState] }
  let wire_blend : BlendState :=
    { color := { operation := .Add, src_factor := .SrcAlpha,
                 dst_factor := .OneMinusSrcAlpha }
      alpha := BlendComponent.REPLACE }
  let wire_target : ColorTargetState :=
    { blend := some wire_blend, write_mask := .ALL }
  let wireframe_pipeline : Option RenderPipeline :=
    if Feature.POLYGON_MODE_LINE ∈ context.features then
      some { vertex_entry := "vs_main", fragment_entry := "fs_wire",
             targets := [some wire_target] }
    else
      none
  { vertex_buffer := vertex_buffer
    index_buffer := index_buffer
    index_count := indices.length
    uniform_buffer := uniform_buffer
    bind_group := bind_group
    render_pipeline := render_pipeline
    wireframe_pipeline := wireframe_pipeline }

/-- Embedding of `Cube::update_transform_matrix` (main.rs, lines 212–216):
recompute the matrix and write it into the existing uniform buffer. -/
def update_transform_matrix (c : Cube) (aspect : ℚ) : Cube × BufferWrite :=
  let transform := create_view_projection_matrix aspect
  let (buf, w) := c.uniform_buffer.write transform
  ({ c with uniform_buffer := buf }, w)

/-- Embedding of `<Cube as Main>::resize` (main.rs, lines 234–237). -/
def resize (c : Cube) (config : SurfaceConfiguration) : Cube × List BufferWrite :=
  let aspect := (config.width : ℚ) / (config.height : ℚ)
  let (c2, w) := c.update_transform_matrix aspect
  (c2, [w])

/-- Embedding of `<Cube as Main>::render` (main.rs, lines 239–295): one
render pass clearing to (0.1, 0.2, 0.3, 1), a solid indexed draw, then a
wireframe draw when the pipeline exists. The cube itself is not mutated and
no buffer is written. -/
def render (c : Cube) (target : RenderTexture) : RenderOutput :=
  let solid : DrawCall :=
    { bind_groups := [c.bind_group]
      bind_group_offsets := [[]]
      pipeline := c.render_pipeline
      vertices := [c.vertex_buffer.id]
      indices := some c.index_buffer.id
      element_range := (0, c.index_count)
      instance_range := (0, 1)
      rasteriser_state := { defaultRasteriserState with cull_mode := some .Back } }
  let wire : List DrawCall :=
    match c.wireframe_pipeline with
    | some pipeline =>
      [{ bind_groups := [c.bind_group]
         bind_group_offsets := [[]]
         pipeline := pipeline
         vertices := [c.vertex_buffer.id]
         indices := some c.index_buffer.id
         element_range := (0, c.index_count)
         instance_range := (0, 1)
         rasteriser_state := { defaultRasteriserState with
           cull_mode := some .Back, polygon_mode := .Line } }]
    | none => []
  { passes := [
      { color_attachments := [
          { target := target
            load := .Clear { r := 1/10, g := 2/10, b := 3/10, a := 1 } }]
        draws := solid :: wire }]
    buffer_writes := [] }

end Cube

/-! ### The framework (framework.rs) -/

/-- Window events forwarded by the event loop; the repository matches on
close / redraw / resized and forwards anything else to `update`. -/
inductive WindowEvent where
  | closeRequested
  | redrawRequested
  | resized (size : PhysicalSize)
  | other (n : ℕ)
deriving DecidableEq, Repr

/-- Embedding of the `Main` trait (framework.rs, lines 33–42). `resize` and
`render` additionally return their observable effects (buffer writes,
recorded passes); `render` returns the possibly-updated renderer since the
Rust signature takes `&mut self`. -/
class Main (E : Type) where
  init : SurfaceConfiguration → Adapter → Context → E
  resize : E → SurfaceConfiguration → Context → E × List BufferWrite
  update : E → WindowEvent → E
  render : E → RenderTexture → Context → E × RenderOutput

/-- The `Main` implementation for `Cube` (main.rs, lines 221–295). -/
instance instMainCube : Main Cube where
  init config _adapter context := Cube.new config context
  resize c config _context := Cube.resize c config
  update c _event := c
  render c target _context := (c, Cube.render c target)

/-- A texture acquired from the swapchain, identified by its texture id. -/
structure SurfaceTexture where
  texture : ℕ
deriving DecidableEq, Repr

/-- Model of `SurfaceTexture::texture.create_view` with an explicit view
format (the only descriptor field framework.rs sets). -/
def SurfaceTexture.create_view (t : SurfaceTexture) (format : TextureFormat) :
    TextureView :=
  { texture := t.texture, format := format }

/-- The presentation surface: what configuration, if any, has been applied
to it. -/
structure Surface where
  config : Option SurfaceConfiguration
deriving DecidableEq, Repr

/-- Embedding of `State<E>` (framework.rs, lines 54–61); the window is an
id. -/
structure State (E : Type) where
  window : ℕ
  size : PhysicalSize
  surface_format : TextureFormat
  surface : Surface
  context : Context
  /-- The active renderer instance (field `example` in the source). -/
  ex : E
deriving DecidableEq, Repr

/-- What the platform supplies to `State::new`: the window's inner size, the
surface capability format list, the device feature set, and an adapter
handle. Adapter/device/surface acquisition failures are not modelled (each
is an `unwrap` the claims do not touch); the format list is, because
`State::new` indexes it. -/
structure Platform where
  inner_size : PhysicalSize
  cap_formats : List TextureFormat
  features : List Feature
  adapter : Adapter
  /-- Result the swapchain hands back on `get_current_texture`. -/
  acquire : Option SurfaceTexture
deriving DecidableEq, Repr

namespace State

/-- Embedding of `State::configure_surface` (framework.rs, lines 123–127):
rebuild the configuration from the stored size and apply it. -/
def configure_surface {E : Type} (s : State E) : State E :=
  let surface_config := build_surface_config s.surface_format s.size
  { s with surface := { config := some surface_config } }

/-- Embedding of `State::new` (framework.rs, lines 81–121). Returns `none`
for the index-out-of-bounds panic when the capability format list is empty
(`cap.formats[0]`). -/
def new (E : Type) [Main E] (p : Platform) (window : ℕ) : Option (State E) :=
  let size := p.inner_size
  let context : Context := { features := p.features }
  match p.cap_formats with
  | [] => none
  | surface_format :: _ =>
    let config := build_surface_config surface_format size
    let ex := Main.init config p.adapter context
    let state : State E :=
      { window := window
        size := size
        surface_format := surface_format
        surface := { config := none }
        context := context
        ex := ex }
    some state.configure_surface

/-- Embedding of `State::resize` (framework.rs, lines 129–138): store the
new size, reconfigure the surface, rebuild a configuration and forward it to
the renderer's resize. -/
def resize {E : Type} [Main E] (s : State E) (new_size : PhysicalSize) : State E :=
  let s1 := { s with size := new_size }
  let s2 := s1.configure_surface
  let config := build_surface_config s2.surface_format s2.size
  let r := Main.resize s2.ex config s2.context
  { s2 with ex := r.1 }

/-- The observable steps of one `State::render` call, in order. -/
inductive FrameAction where
  | acquire (texture : ℕ)
  | createView (format : TextureFormat)
  | delegateRender
  | present (texture : ℕ)
deriving DecidableEq, Repr

/-- Result of `State::render`: either the fatal `expect` panic, or a
completed frame with the view, target, renderer output and action trace. -/
inductive RenderResult (E : Type) where
  | fatal (msg : String)
  | frame (state : State E) (view : TextureView) (target : RenderTexture)
      (output : RenderOutput) (actions : List FrameAction)
deriving DecidableEq, Repr

/-- Embedding of `State::render` (framework.rs, lines 140–161). The
swapchain acquisition result is an explicit input: `none` models
`get_current_texture()` failing, on which the code panics via `expect`. -/
def render {E : Type} [Main E] (s : State E) (acquired : Option SurfaceTexture) :
    RenderResult E :=
  match acquired with
  | none => .fatal "failed to acquire next swapchain texture"
  | some surface_texture =>
    let texture_view :=
      surface_texture.create_view (s.surface_format.add_srgb_suffix)
    let target :=
      RenderTexture.from_texture_view texture_view (s.surface_format.add_srgb_suffix)
    let r := Main.render s.ex target s.context
    .frame { s with ex := r.1 } texture_view target r.2
      [.acquire surface_texture.texture,
       .createView (s.surface_format.add_srgb_suffix),
       .delegateRender,
       .present surface_texture.texture]

/-- Embedding of `State::update` (framework.rs, lines 163–165). -/
def update {E : Type} [Main E] (s : State E) (event : WindowEvent) : State E :=
  { s with ex := Main.update s.ex event }

end State

/-! ### The application driver (framework.rs, `App` + event loop) -/

/-- Embedding of `App<E>` (framework.rs, lines 168–170). -/
structure App (E : Type) where
  state : Option (State E)
deriving DecidableEq, Repr

/-- Events delivered by the winit event loop: the `resumed` signal or a
window event. -/
inductive LoopEvent where
  | resumed
  | window (event : WindowEvent)
deriving DecidableEq, Repr

/-- Driver wrapper around `App`: tracks how many windows the run has
created (each `create_window` call yields a fresh id, equal to the counter)
and whether `event_loop.exit()` has been called. -/
structure Driver (E : Type) where
  app : App E
  windows_created : ℕ
  stopped : Bool
deriving DecidableEq, Repr

namespace Driver

/-- One step of the event loop (framework.rs, lines 172–211): dispatch a
single delivered event. After `exit()` the loop has returned, so events no
longer reach the handlers (the driver is unchanged, nothing rendered).
Returns `none` on a panic: `State::new` failing inside `resumed`, the
`self.state.as_mut().unwrap()` on a window event before any `resumed`, or
the fatal acquisition `expect` inside `render`. The second component counts
`State::render` calls issued by this step. -/
def step {E : Type} [Main E] (p : Platform) (d : Driver E) (ev : LoopEvent) :
    Option (Driver E × ℕ) :=
  if d.stopped then
    some (d, 0)
  else
    match ev with
    | .resumed =>
      -- `resumed` always creates a fresh window and a fresh State,
      -- overwriting `self.state`, then requests a redraw.
      match State.new E p d.windows_created with
      | none => none
      | some st =>
        some ({ d with app := { state := some st },
                       windows_created := d.windows_created + 1 }, 0)
    | .window wev =>
      match d.app.state with
      | none => none -- `self.state.as_mut().unwrap()` panics
      | some st =>
        match wev with
        | .closeRequested =>
          some ({ d with stopped := true }, 0)
        | .redrawRequested =>
          match State.render st p.acquire with
          | .fatal _ => none
          | .frame st2 _ _ _ _ =>
            some ({ d with app := { state := some st2 } }, 1)
        | .resized size =>
          some ({ d with app := { state := some (st.resize size) } }, 0)
        | .other n =>
          some ({ d with app := { state := some (st.update (.other n)) } }, 0)

/-- Run the event loop over a list of delivered events, totalling the
number of `State::render` calls issued. -/
def processEvents {E : Type} [Main E] (p : Platform) :
    Driver E → List LoopEvent → Option (Driver E × ℕ)
  | d, [] => some (d, 0)
  | d, ev :: rest =>
    match step p d ev with
    | none => none
    | some (d2, n) =>
      match processEvents p d2 rest with
      | none => none
      | some (d3, m) => some (d3, n + m)

end Driver

/-! ### Helper definitions for the theorems below -/

/-- Degrees-to-radians conversion, exactly, as a `PiRat`:
`d° = (d/180)·π` radians. -/
def degrees_to_radians (d : ℚ) : PiRat := ⟨0, d / 180⟩

/-- Transform matrix as the specification words it: a perspective projection
with 45 degree vertical field of view, near plane 1, far plane 10 and the
given aspect ratio, composed (projection times view) with a look-at view
from eye (1.5, −5, 3) towards the origin with up axis Z. Stated from the
spec, to be compared with `Cube.create_view_projection_matrix`. -/
def spec_view_projection (aspect : ℚ) : GlamMat4 :=
  .mul (.perspective_rh (degrees_to_radians 45) aspect 1 10)
       (.look_at_rh (3/2, -5, 3) (0, 0, 0) (0, 0, 1))

/-- Color of the cube vertex at position `i` of the vertex table. -/
def vertexColor (i : ℕ) : ℚ × ℚ × ℚ × ℚ :=
  (Cube.create_cube_geometry.1.map Vertex.color).getD i (0, 0, 0, 0)

/-- A platform with one capability format, successful acquisition, and no
optional features. -/
def samplePlatform : Platform :=
  { inner_size := ⟨800, 600⟩
    cap_formats := [.base 0]
    features := []
    adapter := ⟨0⟩
    acquire := some ⟨0⟩ }

/-- A fully initialized state holding a cube renderer. -/
def sampleState : State Cube :=
  { window := 0
    size := ⟨800, 600⟩
    surface_format := .base 0
    surface := { config := some (build_surface_config (.base 0) ⟨800, 600⟩) }
    context := { features := [] }
    ex := Cube.new (build_surface_config (.base 0) ⟨800, 600⟩) { features := [] } }

/-- A driver in the Running configuration (window and state exist). -/
def sampleDriver : Driver Cube :=
  { app := { state := some sampleState }, windows_created := 1, stopped := false }

/-- A driver in the Uninitialized configuration (before any resume). -/
def freshDriver : Driver Cube :=
  { app := { state := none }, windows_created := 0, stopped := false }

/-- Once the event loop has exited, delivered events change nothing and no
render call is ever issued. -/
theorem processEvents_stopped {E : Type} [Main E] (p : Platform) (d : Driver E)
    (h : d.stopped = true) (events : List LoopEvent) :
    Driver.processEvents p d events = some (d, 0) := by
  induction events with
  | nil => rfl
  | cons ev rest ih =>
    simp [Driver.processEvents, Driver.step, h, ih]

/-- Evaluation of `State::new` on a non-empty capability format list: the
constructed state uses the first reported format and is configured before
being returned. -/
theorem State.new_cons {E : Type} [Main E] (p : Platform) (w : ℕ)
    (f : TextureFormat) (fs : List TextureFormat)
    (h : p.cap_formats = f :: fs) :
    State.new E p w = some
      (State.configure_surface
        { window := w
          size := p.inner_size
          surface_format := f
          surface := { config := none }
          context := { features := p.features }
          ex := Main.init (build_surface_config f p.inner_size) p.adapter
            { features := p.features } }) := by
  unfold State.new
  rw [h]

/-- Surface configuration for an 800 by 600 window with format 0. -/
def sampleConfig : SurfaceConfiguration :=
  build_surface_config (.base 0) ⟨800, 600⟩

/-- A context whose device feature set includes line-polygon support. -/
def lineContext : Context := { features := [Feature.POLYGON_MODE_LINE] }

/-- A concrete render target. -/
def sampleTarget : RenderTexture :=
  { view := { texture := 0, format := .srgb 0 }, format := .srgb 0 }

/-! ### The claims -/

/-- C1: for every frame rendered by the cube renderer, if the device feature
set lacks `POLYGON_MODE_LINE` exactly one indexed draw is issued, using the
solid pipeline; if it has it, exactly two draws are issued, solid first
(fill mode) and wireframe second (line mode), and every draw uses the same
vertex buffer, index buffer and bind group. -/
theorem cube_render_draw_passes (config : SurfaceConfiguration)
    (context : Context) (target : RenderTexture) :
    let c := Cube.new config context
    let draws := (Cube.render c target).drawList
    draws.length =
      (if Feature.POLYGON_MODE_LINE ∈ context.features then 2 else 1) ∧
    draws.map DrawCall.pipeline = c.render_pipeline :: c.wireframe_pipeline.toList ∧
    c.wireframe_pipeline.isSome =
      decide (Feature.POLYGON_MODE_LINE ∈ context.features) ∧
    draws.map (fun d => d.rasteriser_state.polygon_mode) =
      (if Feature.POLYGON_MODE_LINE ∈ context.features
        then [PolygonMode.Fill, PolygonMode.Line]
        else [PolygonMode.Fill]) ∧
    ∀ d ∈ draws, d.vertices = [c.vertex_buffer.id] ∧
      d.indices = some c.index_buffer.id ∧
      d.bind_groups = [c.bind_group] := by
  by_cases h : Feature.POLYGON_MODE_LINE ∈ context.features <;>
    simp [Cube.new, Cube.render, RenderOutput.drawList,
      defaultRasteriserState, h]

/-- Witness for C1 on a device with line-polygon support: two draws are
issued and both draw over the solid draw's vertex buffer. -/
theorem cube_render_draw_passes_witness :
    ((Cube.render (Cube.new sampleConfig lineContext) sampleTarget).drawList).length = 2 ∧
    ∀ d ∈ (Cube.render (Cube.new sampleConfig lineContext) sampleTarget).drawList,
      d.vertices = [(Cube.new sampleConfig lineContext).vertex_buffer.id] := by
  have h := cube_render_draw_passes sampleConfig lineContext sampleTarget
  refine ⟨?_, fun d hd => (h.2.2.2.2 d hd).1⟩
  have h1 := h.1
  simpa [lineContext] using h1

/-- C2: after any sequence of resize calls, the configuration applied to the
surface has width and height equal to the most recent resize argument. -/
theorem resize_config_matches_latest {E : Type} [Main E] (s : State E)
    (earlier : List PhysicalSize) (last : PhysicalSize) :
    let s2 := (earlier ++ [last]).foldl State.resize s
    s2.surface.config.map SurfaceConfiguration.width = some last.width ∧
    s2.surface.config.map SurfaceConfiguration.height = some last.height := by
  simp [List.foldl_append, State.resize, State.configure_surface,
    build_surface_config]

/-- C3: `State::render` fails fatally with the "failed to acquire"
diagnostic when acquisition errors, with no retry; otherwise it derives an
sRGB-suffixed view over the acquired texture, builds the render target from
it, delegates to the renderer's render, and presents the acquired texture
unconditionally after the renderer returns (the action trace ends with the
present of that texture). -/
theorem state_render_acquire_view_present {E : Type} [Main E] (s : State E) :
    State.render s none =
      State.RenderResult.fatal "failed to acquire next swapchain texture" ∧
    ∀ t : SurfaceTexture, ∃ (s2 : State E) (out : RenderOutput),
      State.render s (some t) =
        State.RenderResult.frame s2
          (t.create_view s.surface_format.add_srgb_suffix)
          (RenderTexture.from_texture_view
            (t.create_view s.surface_format.add_srgb_suffix)
            s.surface_format.add_srgb_suffix)
          out
          [State.FrameAction.acquire t.texture,
           State.FrameAction.createView s.surface_format.add_srgb_suffix,
           State.FrameAction.delegateRender,
           State.FrameAction.present t.texture] ∧
      out = (Main.render s.ex
        (RenderTexture.from_texture_view
          (t.create_view s.surface_format.add_srgb_suffix)
          s.surface_format.add_srgb_suffix) s.context).2 := by
  exact ⟨rfl, fun t => ⟨_, _, rfl, rfl⟩⟩

/-- C4: the geometry builder returns exactly 24 vertices and exactly 36
indices, and every index is strictly below 24. -/
theorem cube_geometry_well_formed :
    Cube.create_cube_geometry.1.length = 24 ∧
    Cube.create_cube_geometry.2.length = 36 ∧
    ∀ i ∈ Cube.create_cube_geometry.2, i < 24 := by decide

/-- C5: the transform matrix is exactly the spec's matrix (45° field of
view, near 1, far 10, the given aspect ratio, times the fixed look-at view
from (1.5, −5, 3) to the origin with up axis Z); every resize recomputes it
at the new aspect ratio and writes it into the uniform buffer, and render
performs no buffer write (never recomputes it). -/
theorem transform_matrix_spec (aspect : ℚ) (c : Cube)
    (config : SurfaceConfiguration) (target : RenderTexture) :
    Cube.create_view_projection_matrix aspect = spec_view_projection aspect ∧
    (Cube.resize c config).1.uniform_buffer.contents =
      Cube.create_view_projection_matrix
        ((config.width : ℚ) / (config.height : ℚ)) ∧
    (Cube.resize c config).2 =
      [(c.uniform_buffer.id,
        Cube.create_view_projection_matrix
          ((config.width : ℚ) / (config.height : ℚ)))] ∧
    (Cube.render c target).buffer_writes = [] := by
  refine ⟨?_, ?_, ?_, rfl⟩
  · simp only [Cube.create_view_projection_matrix, spec_view_projection]
    norm_num [FRAC_PI_4, degrees_to_radians]
  · simp [Cube.resize, Cube.update_transform_matrix, Buffer.write]
  · simp [Cube.resize, Cube.update_transform_matrix, Buffer.write]

/-- C6: a cube-renderer resize rewrites only the uniform buffer's contents,
in place (same buffer identity, label and usage); the vertex buffer, index
buffer, index count, bind group, solid pipeline and wireframe pipeline are
unchanged. -/
theorem cube_resize_touches_only_uniform (c : Cube)
    (config : SurfaceConfiguration) :
    let c2 := (Cube.resize c config).1
    c2.vertex_buffer = c.vertex_buffer ∧
    c2.index_buffer = c.index_buffer ∧
    c2.index_count = c.index_count ∧
    c2.bind_group = c.bind_group ∧
    c2.render_pipeline = c.render_pipeline ∧
    c2.wireframe_pipeline = c.wireframe_pipeline ∧
    c2.uniform_buffer.id = c.uniform_buffer.id ∧
    c2.uniform_buffer.label = c.uniform_buffer.label ∧
    c2.uniform_buffer.usage = c.uniform_buffer.usage := by
  simp [Cube.resize, Cube.update_transform_matrix, Buffer.write]

/-- C7: a close-requested event received while Running (loop live, state
present) exits the event loop; the remaining events are not dispatched and
zero further render calls are issued. -/
theorem close_requested_stops {E : Type} [Main E] (p : Platform)
    (d : Driver E) (hrun : d.stopped = false) (st : State E)
    (hst : d.app.state = some st) (rest : List LoopEvent) :
    Driver.processEvents p d
      (LoopEvent.window WindowEvent.closeRequested :: rest) =
      some ({ d with stopped := true }, 0) := by
  have hstep : Driver.step p d (LoopEvent.window WindowEvent.closeRequested) =
      some ({ d with stopped := true }, 0) := by
    simp [Driver.step, hrun, hst]
  simp [Driver.processEvents, hstep,
    processEvents_stopped p { d with stopped := true } rfl rest]

/-- Witness for C7 at a concrete Running driver with a trailing redraw
event that must not be dispatched. -/
theorem close_requested_stops_witness :
    Driver.processEvents samplePlatform sampleDriver
      [LoopEvent.window WindowEvent.closeRequested,
       LoopEvent.window WindowEvent.redrawRequested] =
      some ({ sampleDriver with stopped := true }, 0) :=
  close_requested_stops samplePlatform sampleDriver rfl sampleState rfl
    [LoopEvent.window WindowEvent.redrawRequested]

/-- C8 counterexample: from the Uninitialized driver, a sequence with two
resume signals creates two windows (not one), and the surviving State is
the replacement built around the second window (id 1, not 0): `resumed`
unconditionally creates a window and overwrites the stored State. -/
theorem resumed_twice_creates_two_windows :
    (Driver.processEvents samplePlatform freshDriver
        [LoopEvent.resumed, LoopEvent.resumed]).map
      (fun r => (r.1.windows_created, r.1.app.state.map State.window)) =
      some (2, some 1) := by
  rfl

/-- C8 amended: each resume signal received while the loop is live creates a
fresh window (the window counter increments) and builds a new State around
it, replacing any existing one; so with exactly one resume in the run the
window and State are created exactly once, but later resumes create further
windows. -/
theorem resumed_creates_fresh_window {E : Type} [Main E] (p : Platform)
    (d : Driver E) (hrun : d.stopped = false) (f : TextureFormat)
    (fs : List TextureFormat) (hfmt : p.cap_formats = f :: fs) :
    ∃ st : State E, State.new E p d.windows_created = some st ∧
      Driver.step p d LoopEvent.resumed =
        some ({ d with app := { state := some st },
                       windows_created := d.windows_created + 1 }, 0) ∧
      st.window = d.windows_created := by
  refine ⟨_, State.new_cons p d.windows_created f fs hfmt, ?_, ?_⟩
  · simp [Driver.step, hrun, State.new_cons p d.windows_created f fs hfmt]
  · simp [State.configure_surface]

/-- Witness for the amended C8 at the concrete Uninitialized driver. -/
theorem resumed_creates_fresh_window_witness :
    ∃ st : State Cube, State.new Cube samplePlatform 0 = some st ∧
      Driver.step samplePlatform freshDriver LoopEvent.resumed =
        some ({ app := { state := some st }, windows_created := 0 + 1,
                stopped := false }, 0) ∧
      st.window = 0 :=
  resumed_creates_fresh_window samplePlatform freshDriver rfl
    (.base 0) [] rfl

/-- C9: within each of the 6 faces all 4 vertices carry the same color, and
the 6 per-face colors are pairwise distinct. -/
theorem cube_face_colors_uniform_and_distinct :
    (∀ f < 6, ∀ k < 4, vertexColor (4 * f + k) = vertexColor (4 * f)) ∧
    List.Pairwise (fun a b => a ≠ b)
      ((List.range 6).map (fun f => vertexColor (4 * f))) := by
  constructor
  · intro f hf k hk
    interval_cases f <;> interval_cases k <;> rfl
  · have h0 : vertexColor (4 * 0) = (9/10, 4/10, 3/10, 1) := rfl
    have h1 : vertexColor (4 * 1) = (3/10, 4/10, 9/10, 1) := rfl
    have h2 : vertexColor (4 * 2) = (3/10, 8/10, 3/10, 1) := rfl
    have h3 : vertexColor (4 * 3) = (8/10, 3/10, 8/10, 1) := rfl
    have h4 : vertexColor (4 * 4) = (9/10, 9/10, 3/10, 1) := rfl
    have h5 : vertexColor (4 * 5) = (3/10, 9/10, 9/10, 1) := rfl
    simp only [List.range_succ, List.range_zero, List.map_append,
      List.map_cons, List.map_nil, List.nil_append, List.cons_append,
      h0, h1, h2, h3, h4, h5]
    simp only [List.pairwise_cons, List.mem_cons, List.mem_singleton,
      List.not_mem_nil, Prod.mk.injEq]
    norm_num

/-- Witness for C9: the second vertex of the top face carries the top
face's color, and the top and bottom face colors differ (an instance of
pairwise distinctness via the theorem's first conjunct at f = 0, k = 1). -/
theorem cube_face_colors_witness :
    vertexColor (4 * 0 + 1) = vertexColor (4 * 0) :=
  cube_face_colors_uniform_and_distinct.1 0 (by norm_num) 1 (by norm_num)

/-- C10: `State::new` selects the surface format by indexing position 0 of
the capability format list with no emptiness check: when the list is
non-empty construction succeeds with that first format, and when it is
empty construction panics (modelled as `none`) rather than returning a
recoverable error. -/
theorem state_new_format_selection {E : Type} [Main E] (p : Platform)
    (w : ℕ) :
    (p.cap_formats = [] → State.new E p w = none) ∧
    ∀ f fs, p.cap_formats = f :: fs →
      ∃ st : State E, State.new E p w = some st ∧ st.surface_format = f := by
  constructor
  · intro h
    simp [State.new, h]
  · intro f fs h
    refine ⟨_, State.new_cons p w f fs h, ?_⟩
    simp [State.configure_surface]

/-- Witness for C10: with an empty capability list construction panics,
with the singleton list it selects that format. -/
theorem state_new_format_selection_witness :
    State.new Cube { samplePlatform with cap_formats := [] } 0 = none ∧
    ∃ st : State Cube, State.new Cube samplePlatform 0 = some st ∧
      st.surface_format = .base 0 :=
  ⟨(state_new_format_selection { samplePlatform with cap_formats := [] } 0).1
      rfl,
   (state_new_format_selection samplePlatform 0).2 (.base 0) [] rfl⟩
